import Mathlib

/-!
Verification development for the `bits_client` crate.

The file `src/lib.rs` defines the caller-facing facade (`BitsClient`,
`BitsMonitorClient`), the communication-error taxonomy (`PipeError`, re-exported
as `Error`), and the `From<ComedyError>` conversion; those are embedded here
directly from the source.  The crate's `in_process` module and the
`bits_protocol` failure enumerations are part of the repository but their
sources are not available, so they are modelled from the specification, as
noted on each such definition.  Stateful behaviour is embedded by explicit
state passing over a `DriverState` record that represents the external BITS
driver together with the client-held monitor controls.
-/

/-- Milliseconds, as used for poll intervals and timeouts (`u32` in the source). -/
abbrev Millis := Nat

/-- Opaque OS-level error from the external `comedy` crate (`ComedyError`);
only its identity matters to this layer, so it is modelled as a wrapped code. -/
structure ComedyError where
  code : Nat
  deriving DecidableEq, Repr

/-- The communication-failure error type from `src/lib.rs` (`enum PipeError`):
exactly the four kinds `NotConnected`, `Timeout`, `WriteCount(usize, u32)` and
`Api(ComedyError)`. -/
inductive PipeError where
  | NotConnected
  | Timeout
  | WriteCount (expected : Nat) (actual : Nat)
  | Api (cause : ComedyError)
  deriving DecidableEq, Repr

/-- `pub use PipeError as Error` from `src/lib.rs`. -/
abbrev Error := PipeError

/-- The `impl From<ComedyError> for PipeError` conversion from `src/lib.rs`:
it always produces the `Api` variant, keeping the original error as cause. -/
def PipeError.fromComedyError (err : ComedyError) : PipeError :=
  PipeError.Api err

/-- 128-bit globally-unique job identifier (`guid_win::Guid`, an external
crate; the spec fixes only that identifiers are 128-bit values). -/
structure Guid where
  data : Fin (2 ^ 128)
  deriving DecidableEq, Repr

/-- Proxy-usage mode, mirrored from the external driver contract
(spec: "one of a small fixed enumeration (e.g., preconfigured/autodetect/none)"). -/
inductive BitsProxyUsage where
  | Preconfig
  | AutoDetect
  | NoProxy
  deriving DecidableEq, Repr

/-- Job state, mirrored from the external driver contract
(spec: "state (e.g., transferring/transferred/error/suspended)"). -/
inductive BitsJobState where
  | Queued
  | Transferring
  | Suspended
  | Error
  | Transferred
  | Cancelled
  deriving DecidableEq, Repr

/-- A job state in which a status snapshot becomes available at once
(spec: a result "may be available sooner" if "the job completes or errors"). -/
def BitsJobState.isFinal : BitsJobState → Bool
  | BitsJobState.Error => true
  | BitsJobState.Transferred => true
  | _ => false

/-- Transfer progress, mirrored from the external driver contract. -/
structure BitsJobProgress where
  total : Nat
  completed : Nat
  deriving DecidableEq, Repr

/-- Per-job error detail as reported inside a status snapshot. -/
structure BitsJobError where
  context : Nat
  code : Nat
  deriving DecidableEq, Repr

/-- Point-in-time status snapshot (spec: "a point-in-time view of state,
transfer progress, and an optional execution error detail"). -/
structure BitsJobStatus where
  state : BitsJobState
  progress : BitsJobProgress
  error : Option BitsJobError
  deriving DecidableEq, Repr

/-- Modelled from the spec: the `bits_protocol` per-operation execution-failure
enumerations are not in the available sources; each is "a small closed
enumeration of rejection reasons" such as "job not found". -/
inductive StartJobFailure where
  | Other (code : Nat)
  deriving DecidableEq, Repr

/-- Modelled from the spec: rejection reasons for `monitor_job`
(the spec requires a "job not found" style inner failure for a nonexistent id). -/
inductive MonitorJobFailure where
  | NotFound
  | Other (code : Nat)
  deriving DecidableEq, Repr

/-- Modelled from the spec: rejection reasons for `suspend_job`. -/
inductive SuspendJobFailure where
  | NotFound
  | Other (code : Nat)
  deriving DecidableEq, Repr

/-- Modelled from the spec: rejection reasons for `resume_job`. -/
inductive ResumeJobFailure where
  | NotFound
  | Other (code : Nat)
  deriving DecidableEq, Repr

/-- Modelled from the spec: rejection reasons for `set_job_priority`. -/
inductive SetJobPriorityFailure where
  | NotFound
  | Other (code : Nat)
  deriving DecidableEq, Repr

/-- Modelled from the spec: rejection reasons for `set_update_interval` and
`stop_update` (the source gives both operations this same failure type). -/
inductive SetUpdateIntervalFailure where
  | NotFound
  | Other (code : Nat)
  deriving DecidableEq, Repr

/-- Modelled from the spec: rejection reasons for `complete_job`. -/
inductive CompleteJobFailure where
  | NotFound
  | Other (code : Nat)
  deriving DecidableEq, Repr

/-- Modelled from the spec: rejection reasons for `cancel_job`. -/
inductive CancelJobFailure where
  | NotFound
  | Other (code : Nat)
  deriving DecidableEq, Repr

/-- Association-list lookup keyed by `Guid`. -/
def lookupG {α : Type} : List (Guid × α) → Guid → Option α
  | [], _ => none
  | (k, v) :: t, g => if k = g then some v else lookupG t g

/-- Association-list removal keyed by `Guid`. -/
def removeG {α : Type} : List (Guid × α) → Guid → List (Guid × α)
  | [], _ => []
  | (k, v) :: t, g => if k = g then removeG t g else (k, v) :: removeG t g

/-- Association-list update keyed by `Guid`. -/
def setG {α : Type} (l : List (Guid × α)) (g : Guid) (v : α) : List (Guid × α) :=
  (g, v) :: removeG l g

theorem lookupG_setG_self {α : Type} (l : List (Guid × α)) (g : Guid) (v : α) :
    lookupG (setG l g v) g = some v := by
  simp [setG, lookupG]

theorem lookupG_removeG_self {α : Type} (l : List (Guid × α)) (g : Guid) :
    lookupG (removeG l g) g = none := by
  induction l with
  | nil => rfl
  | cons hd t ih =>
    obtain ⟨k, v⟩ := hd
    by_cases hk : k = g <;> simp [removeG, hk, lookupG, ih]

/-- A priority request sent to the driver, recorded for observability
(spec: restoration "should be observable/loggable internally"). -/
inductive PriorityEvent where
  | boost (guid : Guid)
  | restore (guid : Guid)
  deriving DecidableEq, Repr

/-- Modelled from the spec: the client-held control record for the single
active monitor of one job — its handle token, poll interval, priority-boost
flag, and the time until the next status snapshot is available. -/
structure MonitorControl where
  token : Nat
  interval : Millis
  boosted : Bool
  nextStatusIn : Millis
  deriving DecidableEq, Repr

/-- Modelled from the spec: a job as held by the external driver — source URL,
resolved local save path, proxy usage, current priority and state, progress,
and optional error detail. -/
structure Job where
  url : String
  savePath : String
  proxyUsage : BitsProxyUsage
  foreground : Bool
  state : BitsJobState
  progress : BitsJobProgress
  error : Option BitsJobError
  deriving DecidableEq, Repr

/-- Modelled from the spec: the combined state of the external driver (its job
table) and the client side (monitor controls, fresh token and guid counters).
`setPriorityFails` is the environment's choice of whether driver priority
requests fail, and `log` records every priority request issued. -/
structure DriverState where
  jobs : List (Guid × Job)
  controls : List (Guid × MonitorControl)
  nextToken : Nat
  nextGuidVal : Nat
  setPriorityFails : Bool
  log : List PriorityEvent
  deriving DecidableEq, Repr

/-- The in-process client (`in_process::InProcessClient`); it holds the
`(job_name, save_path_prefix)` scope fixed at construction. -/
structure InProcessClient where
  job_name : String
  save_path_prefix : String
  deriving DecidableEq, Repr

/-- The in-process monitor handle (`in_process::InProcessMonitor`); it holds
its job's id and the token identifying it as the active control holder. -/
structure InProcessMonitor where
  guid : Guid
  token : Nat
  deriving DecidableEq, Repr

/-- Record one priority request in the observability log. -/
def logPriorityRequest (st : DriverState) (g : Guid) (fg : Bool) : DriverState :=
  { st with log := (if fg then PriorityEvent.boost g else PriorityEvent.restore g) :: st.log }

/-- Apply a priority request on the driver side; it takes effect only when the
environment lets driver priority requests succeed. -/
def applyPriority (st : DriverState) (g : Guid) (fg : Bool) : DriverState :=
  if st.setPriorityFails then st
  else
    match lookupG st.jobs g with
    | none => st
    | some job => { st with jobs := setG st.jobs g { job with foreground := fg } }

/-- Modelled from the spec: issue a priority request to the driver.  The
request is always recorded in the log; it is applied to the job only when the
environment lets driver priority requests succeed (best-effort application
whose failure is never an error of the issuing operation). -/
def issuePriority (st : DriverState) (g : Guid) (fg : Bool) : DriverState :=
  applyPriority (logPriorityRequest st g fg) g fg

/-- Modelled from the spec: install a fresh monitor control for job `g`
(superseding any previous one), issue the priority-boost request and enter the
Boosted state; the first status snapshot is due after one poll interval. -/
def installMonitor (st : DriverState) (g : Guid) (interval : Millis) :
    InProcessMonitor × DriverState :=
  (⟨g, st.nextToken⟩,
   issuePriority
     { st with
         nextToken := st.nextToken + 1,
         controls := setG st.controls g
           { token := st.nextToken, interval := interval, boosted := true,
             nextStatusIn := interval } }
     g true)

/-- Modelled from the spec: deactivate the monitor control of job `g`, if any,
and issue the restore-to-normal priority request; returns whether a monitor was
actually stopped. -/
def stopMonitor (st : DriverState) (g : Guid) : Bool × DriverState :=
  match lookupG st.controls g with
  | none => (false, st)
  | some _ =>
    let st1 := { st with controls := removeG st.controls g }
    (true, issuePriority st1 g false)

/-- The success value of `start_job` (`bits_protocol::StartJobSuccess`); the
source documents `result.0.guid` as the new job's id. -/
structure StartJobSuccess where
  guid : Guid
  deriving DecidableEq, Repr

/-- A fresh driver-assigned 128-bit job identifier. -/
def freshGuid (st : DriverState) : Guid :=
  ⟨⟨st.nextGuidVal % 2 ^ 128, Nat.mod_lt _ (by positivity)⟩⟩

/-- Modelled from the spec: `InProcessClient::new` establishes the connection
to the driver; `connectFailure` is the environment's choice of an OS-level
failure for the connection attempt. -/
def InProcessClient.new (job_name save_path_prefix : String)
    (connectFailure : Option ComedyError) : Except ComedyError InProcessClient :=
  match connectFailure with
  | some e => Except.error e
  | none => Except.ok { job_name := job_name, save_path_prefix := save_path_prefix }

/-- Insert a freshly created job under this client's save-path prefix into the
driver's job table, consuming one fresh id. -/
def startJobInsert (c : InProcessClient) (url savePath : String)
    (proxyUsage : BitsProxyUsage) (st : DriverState) : DriverState :=
  { st with
      jobs := setG st.jobs (freshGuid st)
        { url := url, savePath := InProcessClient.save_path_prefix c ++ savePath,
          proxyUsage := proxyUsage, foreground := false, state := BitsJobState.Transferring,
          progress := { total := 0, completed := 0 }, error := none },
      nextGuidVal := st.nextGuidVal + 1 }

/-- Modelled from the spec: create a job under this client's save-path prefix,
assign it the proxy usage, and atomically install a bound monitor polling at
`monitorIntervalMillis` (which starts the priority-boost protocol). -/
def InProcessClient.start_job (c : InProcessClient) (url savePath : String)
    (proxyUsage : BitsProxyUsage) (monitorIntervalMillis : Millis) (st : DriverState) :
    Except StartJobFailure (StartJobSuccess × InProcessMonitor) × DriverState :=
  (Except.ok (⟨freshGuid st⟩,
     (installMonitor (startJobInsert c url savePath proxyUsage st) (freshGuid st)
       monitorIntervalMillis).1),
   (installMonitor (startJobInsert c url savePath proxyUsage st) (freshGuid st)
     monitorIntervalMillis).2)

/-- Modelled from the spec: attach a fresh monitor to an existing job id
(inner "job not found" failure for a nonexistent id), superseding any
previously active monitor for that id. -/
def InProcessClient.monitor_job (_c : InProcessClient) (g : Guid) (interval : Millis)
    (st : DriverState) : Except MonitorJobFailure InProcessMonitor × DriverState :=
  match lookupG st.jobs g with
  | none => (Except.error MonitorJobFailure.NotFound, st)
  | some _ => (Except.ok (installMonitor st g interval).1, (installMonitor st g interval).2)

/-- Modelled from the spec: pause the transfer without affecting monitor state. -/
def InProcessClient.suspend_job (_c : InProcessClient) (g : Guid) (st : DriverState) :
    Except SuspendJobFailure Unit × DriverState :=
  match lookupG st.jobs g with
  | none => (Except.error SuspendJobFailure.NotFound, st)
  | some job =>
    (Except.ok (), { st with jobs := setG st.jobs g { job with state := BitsJobState.Suspended } })

/-- Modelled from the spec: resume the transfer without affecting monitor state. -/
def InProcessClient.resume_job (_c : InProcessClient) (g : Guid) (st : DriverState) :
    Except ResumeJobFailure Unit × DriverState :=
  match lookupG st.jobs g with
  | none => (Except.error ResumeJobFailure.NotFound, st)
  | some job =>
    (Except.ok (),
     { st with jobs := setG st.jobs g { job with state := BitsJobState.Transferring } })

/-- Modelled from the spec: directly set the job's priority (last writer wins). -/
def InProcessClient.set_job_priority (_c : InProcessClient) (g : Guid) (foreground : Bool)
    (st : DriverState) : Except SetJobPriorityFailure Unit × DriverState :=
  match lookupG st.jobs g with
  | none => (Except.error SetJobPriorityFailure.NotFound, st)
  | some job =>
    (Except.ok (), { st with jobs := setG st.jobs g { job with foreground := foreground } })

/-- Modelled from the spec: change the polling cadence of the job's active
monitor without recreating it. -/
def InProcessClient.set_update_interval (_c : InProcessClient) (g : Guid) (interval : Millis)
    (st : DriverState) : Except SetUpdateIntervalFailure Unit × DriverState :=
  match lookupG st.controls g with
  | none => (Except.error SetUpdateIntervalFailure.NotFound, st)
  | some ctl =>
    (Except.ok (), { st with controls := setG st.controls g { ctl with interval := interval } })

/-- Modelled from the spec: deactivate the job's monitor; triggers priority
restoration. -/
def InProcessClient.stop_update (_c : InProcessClient) (g : Guid) (st : DriverState) :
    Except SetUpdateIntervalFailure Unit × DriverState :=
  if (stopMonitor st g).1 then (Except.ok (), (stopMonitor st g).2)
  else (Except.error SetUpdateIntervalFailure.NotFound, (stopMonitor st g).2)

/-- Modelled from the spec: terminal operation; stops any monitor still bound
to `g` as part of the call, then completes and disposes of the job. -/
def InProcessClient.complete_job (_c : InProcessClient) (g : Guid) (st : DriverState) :
    Except CompleteJobFailure Unit × DriverState :=
  match lookupG (stopMonitor st g).2.jobs g with
  | none => (Except.error CompleteJobFailure.NotFound, (stopMonitor st g).2)
  | some _ =>
    (Except.ok (),
     { (stopMonitor st g).2 with jobs := removeG (stopMonitor st g).2.jobs g })

/-- Modelled from the spec: terminal operation; stops any monitor still bound
to `g` as part of the call, then cancels and disposes of the job. -/
def InProcessClient.cancel_job (_c : InProcessClient) (g : Guid) (st : DriverState) :
    Except CancelJobFailure Unit × DriverState :=
  match lookupG (stopMonitor st g).2.jobs g with
  | none => (Except.error CancelJobFailure.NotFound, (stopMonitor st g).2)
  | some _ =>
    (Except.ok (),
     { (stopMonitor st g).2 with jobs := removeG (stopMonitor st g).2.jobs g })

/-- The status snapshot handed to the caller for a job. -/
def Job.statusSnapshot (job : Job) : BitsJobStatus :=
  { state := job.state, progress := job.progress, error := job.error }

/-- Modelled from the spec: `InProcessMonitor::get_status` blocks until a new
status snapshot is available (after the remaining wait, or at once when the
job has completed or errored) or until `timeoutMillis` elapses, yielding
`Timeout`; a severed or superseded monitor fails with `NotConnected`. -/
def InProcessMonitor.get_status (m : InProcessMonitor) (timeoutMillis : Millis)
    (st : DriverState) : Except PipeError BitsJobStatus × DriverState :=
  match lookupG st.controls m.guid with
  | none => (Except.error PipeError.NotConnected, st)
  | some ctl =>
    if ctl.token ≠ m.token then (Except.error PipeError.NotConnected, st)
    else
      match lookupG st.jobs m.guid with
      | none => (Except.error PipeError.NotConnected, st)
      | some job =>
        if timeoutMillis < (if job.state.isFinal then 0 else ctl.nextStatusIn) then
          (Except.error PipeError.Timeout, st)
        else
          (Except.ok (Job.statusSnapshot job),
           { st with
               controls := setG st.controls m.guid { ctl with nextStatusIn := ctl.interval } })

/-- Modelled from the spec: dropping the monitor handle stops its monitor and
issues the restore-to-normal request, when this handle still holds the active
control; a superseded or already-stopped handle releases nothing. -/
def InProcessMonitor.drop (m : InProcessMonitor) (st : DriverState) : DriverState :=
  match lookupG st.controls m.guid with
  | none => st
  | some ctl => if ctl.token = m.token then (stopMonitor st m.guid).2 else st

/-- `enum BitsClient` from `src/lib.rs`: the in-process variant does all BITS
calls in-process; space is reserved for a future out-of-process variant. -/
inductive BitsClient where
  | InProcess (client : InProcessClient)

/-- `enum BitsMonitorClient` from `src/lib.rs`. -/
inductive BitsMonitorClient where
  | InProcess (monitor : InProcessMonitor)

/-- `BitsClient::new` from `src/lib.rs`: builds the in-process client, with the
`?` operator converting any `ComedyError` through `From<ComedyError>`. -/
def BitsClient.new (job_name save_path_prefix : String)
    (connectFailure : Option ComedyError) : Except PipeError BitsClient :=
  match InProcessClient.new job_name save_path_prefix connectFailure with
  | Except.error e => Except.error (PipeError.fromComedyError e)
  | Except.ok c => Except.ok (BitsClient.InProcess c)

/-- `BitsClient::start_job` from `src/lib.rs`: dispatches to the in-process
client, wraps the returned monitor in `BitsMonitorClient::InProcess`, and wraps
the whole inner result in outer `Ok`. -/
def BitsClient.start_job :
    BitsClient → String → String → BitsProxyUsage → Millis → DriverState →
      Except PipeError (Except StartJobFailure (StartJobSuccess × BitsMonitorClient)) ×
        DriverState
  | BitsClient.InProcess c, url, savePath, pu, interval, st =>
    (Except.ok ((InProcessClient.start_job c url savePath pu interval st).1.map
        (fun p => (p.1, BitsMonitorClient.InProcess p.2))),
     (InProcessClient.start_job c url savePath pu interval st).2)

/-- `BitsClient::monitor_job` from `src/lib.rs`. -/
def BitsClient.monitor_job :
    BitsClient → Guid → Millis → DriverState →
      Except PipeError (Except MonitorJobFailure BitsMonitorClient) × DriverState
  | BitsClient.InProcess c, g, interval, st =>
    (Except.ok ((InProcessClient.monitor_job c g interval st).1.map
        BitsMonitorClient.InProcess),
     (InProcessClient.monitor_job c g interval st).2)

/-- `BitsClient::suspend_job` from `src/lib.rs`. -/
def BitsClient.suspend_job :
    BitsClient → Guid → DriverState →
      Except PipeError (Except SuspendJobFailure Unit) × DriverState
  | BitsClient.InProcess c, g, st =>
    (Except.ok (InProcessClient.suspend_job c g st).1, (InProcessClient.suspend_job c g st).2)

/-- `BitsClient::resume_job` from `src/lib.rs`. -/
def BitsClient.resume_job :
    BitsClient → Guid → DriverState →
      Except PipeError (Except ResumeJobFailure Unit) × DriverState
  | BitsClient.InProcess c, g, st =>
    (Except.ok (InProcessClient.resume_job c g st).1, (InProcessClient.resume_job c g st).2)

/-- `BitsClient::set_job_priority` from `src/lib.rs`. -/
def BitsClient.set_job_priority :
    BitsClient → Guid → Bool → DriverState →
      Except PipeError (Except SetJobPriorityFailure Unit) × DriverState
  | BitsClient.InProcess c, g, fg, st =>
    (Except.ok (InProcessClient.set_job_priority c g fg st).1,
     (InProcessClient.set_job_priority c g fg st).2)

/-- `BitsClient::set_update_interval` from `src/lib.rs`. -/
def BitsClient.set_update_interval :
    BitsClient → Guid → Millis → DriverState →
      Except PipeError (Except SetUpdateIntervalFailure Unit) × DriverState
  | BitsClient.InProcess c, g, interval, st =>
    (Except.ok (InProcessClient.set_update_interval c g interval st).1,
     (InProcessClient.set_update_interval c g interval st).2)

/-- `BitsClient::stop_update` from `src/lib.rs`. -/
def BitsClient.stop_update :
    BitsClient → Guid → DriverState →
      Except PipeError (Except SetUpdateIntervalFailure Unit) × DriverState
  | BitsClient.InProcess c, g, st =>
    (Except.ok (InProcessClient.stop_update c g st).1, (InProcessClient.stop_update c g st).2)

/-- `BitsClient::complete_job` from `src/lib.rs`. -/
def BitsClient.complete_job :
    BitsClient → Guid → DriverState →
      Except PipeError (Except CompleteJobFailure Unit) × DriverState
  | BitsClient.InProcess c, g, st =>
    (Except.ok (InProcessClient.complete_job c g st).1, (InProcessClient.complete_job c g st).2)

/-- `BitsClient::cancel_job` from `src/lib.rs`. -/
def BitsClient.cancel_job :
    BitsClient → Guid → DriverState →
      Except PipeError (Except CancelJobFailure Unit) × DriverState
  | BitsClient.InProcess c, g, st =>
    (Except.ok (InProcessClient.cancel_job c g st).1, (InProcessClient.cancel_job c g st).2)

/-- `BitsMonitorClient::get_status` from `src/lib.rs`: dispatches to the
in-process monitor. -/
def BitsMonitorClient.get_status :
    BitsMonitorClient → Millis → DriverState → Except PipeError BitsJobStatus × DriverState
  | BitsMonitorClient.InProcess m, t, st => InProcessMonitor.get_status m t st

/-- Modelled from the spec: the reserved out-of-process transport must verify
that each framed write wrote exactly the requested byte count, raising
`WriteCount(expected, actual)` otherwise. -/
def verifyFrameWrite (expected actual : Nat) : Except PipeError Unit :=
  if actual = expected then Except.ok () else Except.error (PipeError.WriteCount expected actual)

/-- A concrete empty world: no jobs, no monitor controls, nothing logged. -/
def emptyState : DriverState :=
  { jobs := [], controls := [], nextToken := 0, nextGuidVal := 0,
    setPriorityFails := false, log := [] }

/-- A concrete job identifier. -/
def guid0 : Guid := ⟨⟨0, by positivity⟩⟩

/-- A concrete in-process client scope. -/
def client0 : InProcessClient := { job_name := "TestJob", save_path_prefix := "dl/" }

/-- A concrete transferring job. -/
def job0 : Job :=
  { url := "u", savePath := "dl/f", proxyUsage := BitsProxyUsage.NoProxy,
    foreground := true, state := BitsJobState.Transferring,
    progress := { total := 100, completed := 0 }, error := none }

/-- A concrete active monitor control with a 1000 ms interval. -/
def ctl0 : MonitorControl :=
  { token := 0, interval := 1000, boosted := true, nextStatusIn := 1000 }

/-- A concrete world holding `job0` under `guid0` with `ctl0` as its active
monitor control, as left by a boost request. -/
def midState : DriverState :=
  { jobs := [(guid0, job0)], controls := [(guid0, ctl0)], nextToken := 1,
    nextGuidVal := 1, setPriorityFails := false, log := [PriorityEvent.boost guid0] }

/-- A concrete monitor handle holding the active control of `midState`. -/
def mon0 : InProcessMonitor := { guid := guid0, token := 0 }

theorem logPriorityRequest_jobs (st : DriverState) (g : Guid) (fg : Bool) :
    (logPriorityRequest st g fg).jobs = st.jobs := rfl

theorem logPriorityRequest_controls (st : DriverState) (g : Guid) (fg : Bool) :
    (logPriorityRequest st g fg).controls = st.controls := rfl

theorem applyPriority_controls (st : DriverState) (g : Guid) (fg : Bool) :
    (applyPriority st g fg).controls = st.controls := by
  unfold applyPriority
  split
  · rfl
  · split <;> rfl

theorem applyPriority_log (st : DriverState) (g : Guid) (fg : Bool) :
    (applyPriority st g fg).log = st.log := by
  unfold applyPriority
  split
  · rfl
  · split <;> rfl

theorem isSome_lookupG_applyPriority (st : DriverState) (g : Guid) (fg : Bool) :
    (lookupG (applyPriority st g fg).jobs g).isSome = (lookupG st.jobs g).isSome := by
  unfold applyPriority
  split
  · rfl
  · split
    · rfl
    · next job heq => simp [lookupG_setG_self, heq]

theorem issuePriority_controls (st : DriverState) (g : Guid) (fg : Bool) :
    (issuePriority st g fg).controls = st.controls := by
  unfold issuePriority
  rw [applyPriority_controls, logPriorityRequest_controls]

theorem issuePriority_log (st : DriverState) (g : Guid) (fg : Bool) :
    (issuePriority st g fg).log
      = (if fg then PriorityEvent.boost g else PriorityEvent.restore g) :: st.log := by
  unfold issuePriority
  rw [applyPriority_log]
  rfl

theorem isSome_lookupG_issuePriority (st : DriverState) (g : Guid) (fg : Bool) :
    (lookupG (issuePriority st g fg).jobs g).isSome = (lookupG st.jobs g).isSome := by
  unfold issuePriority
  rw [isSome_lookupG_applyPriority, logPriorityRequest_jobs]

theorem stopMonitor_fst (st : DriverState) (g : Guid) :
    (stopMonitor st g).1 = (lookupG st.controls g).isSome := by
  unfold stopMonitor
  split <;> simp_all

theorem stopMonitor_none (st : DriverState) (g : Guid)
    (h : lookupG st.controls g = none) : stopMonitor st g = (false, st) := by
  unfold stopMonitor
  rw [h]

theorem stopMonitor_controls (st : DriverState) (g : Guid) :
    lookupG (stopMonitor st g).2.controls g = none := by
  unfold stopMonitor
  split
  · next h => simpa using h
  · rw [issuePriority_controls]
    exact lookupG_removeG_self _ _

theorem stopMonitor_log (st : DriverState) (g : Guid) :
    (stopMonitor st g).2.log
      = if (lookupG st.controls g).isSome then PriorityEvent.restore g :: st.log
        else st.log := by
  unfold stopMonitor
  split
  · next h => simp [h]
  · next ctl h => simp [h, issuePriority_log]

theorem stopMonitor_jobs_isSome (st : DriverState) (g : Guid) :
    (lookupG (stopMonitor st g).2.jobs g).isSome = (lookupG st.jobs g).isSome := by
  unfold stopMonitor
  split
  · rfl
  · exact isSome_lookupG_issuePriority _ _ _

/-- C1: every `BitsClient` job operation returns a two-layer result; on the
`InProcess` variant the outer (communication) layer is always `Ok`, whatever
the arguments and driver state, and `monitor_job` on a nonexistent identifier
yields the inner `MonitorJobFailure`, never an outer communication error. -/
theorem C1_two_layer_results (bc : BitsClient) (g : Guid) (url savePath : String)
    (pu : BitsProxyUsage) (i : Millis) (fg : Bool) (st : DriverState) :
    (BitsClient.start_job bc url savePath pu i st).1.isOk = true ∧
    (BitsClient.monitor_job bc g i st).1.isOk = true ∧
    (BitsClient.suspend_job bc g st).1.isOk = true ∧
    (BitsClient.resume_job bc g st).1.isOk = true ∧
    (BitsClient.set_job_priority bc g fg st).1.isOk = true ∧
    (BitsClient.set_update_interval bc g i st).1.isOk = true ∧
    (BitsClient.stop_update bc g st).1.isOk = true ∧
    (BitsClient.complete_job bc g st).1.isOk = true ∧
    (BitsClient.cancel_job bc g st).1.isOk = true ∧
    (lookupG st.jobs g = none →
      (BitsClient.monitor_job bc g i st).1
        = Except.ok (Except.error MonitorJobFailure.NotFound)) := by
  cases bc with
  | InProcess c =>
    refine ⟨rfl, rfl, rfl, rfl, rfl, rfl, rfl, rfl, rfl, ?_⟩
    intro h
    simp [BitsClient.monitor_job, InProcessClient.monitor_job, h, Except.map]

/-- C1 witness: on a driver state with no jobs, `monitor_job` returns outer
`Ok` with the inner "job not found" failure. -/
theorem C1_two_layer_results_witness :
    (BitsClient.monitor_job (BitsClient.InProcess client0) guid0 1000 emptyState).1
      = Except.ok (Except.error MonitorJobFailure.NotFound) :=
  (C1_two_layer_results (BitsClient.InProcess client0) guid0 "u" "f"
    BitsProxyUsage.NoProxy 1000 false emptyState).2.2.2.2.2.2.2.2.2 rfl

/-- C3: the communication-failure type is exactly the closed set of four kinds
`NotConnected`, `Timeout`, `WriteCount(expected, actual)` and `Api(cause)`;
equality of kinds is decidable so callers can branch on kind without string
inspection, and every outer error an operation can surface is a `PipeError`
value, hence one of the four (shown here for `get_status`, the one operation
whose outer result can be an error on the in-process transport). -/
theorem C3_closed_error_taxonomy :
    (∀ e : PipeError,
      e = PipeError.NotConnected ∨ e = PipeError.Timeout ∨
      (∃ a b, e = PipeError.WriteCount a b) ∨ (∃ cause, e = PipeError.Api cause)) ∧
    (∀ e₁ e₂ : PipeError, e₁ = e₂ ∨ e₁ ≠ e₂) ∧
    (∀ (m : BitsMonitorClient) (t : Millis) (st : DriverState),
      (BitsMonitorClient.get_status m t st).1.isOk = true ∨
      ∃ e : Error, (BitsMonitorClient.get_status m t st).1 = Except.error e ∧
        (e = PipeError.NotConnected ∨ e = PipeError.Timeout ∨
         (∃ a b, e = PipeError.WriteCount a b) ∨ (∃ cause, e = PipeError.Api cause))) := by
  refine ⟨?_, ?_, ?_⟩
  · intro e
    cases e with
    | NotConnected => exact Or.inl rfl
    | Timeout => exact Or.inr (Or.inl rfl)
    | WriteCount a b => exact Or.inr (Or.inr (Or.inl ⟨a, b, rfl⟩))
    | Api c => exact Or.inr (Or.inr (Or.inr ⟨c, rfl⟩))
  · intro e₁ e₂
    exact Decidable.em _
  · intro m t st
    cases hr : (BitsMonitorClient.get_status m t st).1 with
    | ok v => exact Or.inl rfl
    | error e =>
      refine Or.inr ⟨e, rfl, ?_⟩
      cases e with
      | NotConnected => exact Or.inl rfl
      | Timeout => exact Or.inr (Or.inl rfl)
      | WriteCount a b => exact Or.inr (Or.inr (Or.inl ⟨a, b, rfl⟩))
      | Api c => exact Or.inr (Or.inr (Or.inr ⟨c, rfl⟩))

/-- C10: the `BitsClient` facade is a transparent wrapper over the in-process
client: every operation on `BitsClient::InProcess(c)` is exactly `Ok` of the
underlying in-process result for the same arguments (monitors wrapped as
`BitsMonitorClient::InProcess`), with the identical state transition and no
facade-local transformation, and `BitsMonitorClient::get_status` is exactly
the inner monitor's `get_status`. -/
theorem C10_transparent_facade (c : InProcessClient) (m : InProcessMonitor) (g : Guid)
    (url savePath : String) (pu : BitsProxyUsage) (i t : Millis) (fg : Bool)
    (st : DriverState) :
    BitsClient.start_job (BitsClient.InProcess c) url savePath pu i st
      = (Except.ok ((InProcessClient.start_job c url savePath pu i st).1.map
          (fun p => (p.1, BitsMonitorClient.InProcess p.2))),
         (InProcessClient.start_job c url savePath pu i st).2) ∧
    BitsClient.monitor_job (BitsClient.InProcess c) g i st
      = (Except.ok ((InProcessClient.monitor_job c g i st).1.map
          BitsMonitorClient.InProcess),
         (InProcessClient.monitor_job c g i st).2) ∧
    BitsClient.suspend_job (BitsClient.InProcess c) g st
      = (Except.ok (InProcessClient.suspend_job c g st).1,
         (InProcessClient.suspend_job c g st).2) ∧
    BitsClient.resume_job (BitsClient.InProcess c) g st
      = (Except.ok (InProcessClient.resume_job c g st).1,
         (InProcessClient.resume_job c g st).2) ∧
    BitsClient.set_job_priority (BitsClient.InProcess c) g fg st
      = (Except.ok (InProcessClient.set_job_priority c g fg st).1,
         (InProcessClient.set_job_priority c g fg st).2) ∧
    BitsClient.set_update_interval (BitsClient.InProcess c) g i st
      = (Except.ok (InProcessClient.set_update_interval c g i st).1,
         (InProcessClient.set_update_interval c g i st).2) ∧
    BitsClient.stop_update (BitsClient.InProcess c) g st
      = (Except.ok (InProcessClient.stop_update c g st).1,
         (InProcessClient.stop_update c g st).2) ∧
    BitsClient.complete_job (BitsClient.InProcess c) g st
      = (Except.ok (InProcessClient.complete_job c g st).1,
         (InProcessClient.complete_job c g st).2) ∧
    BitsClient.cancel_job (BitsClient.InProcess c) g st
      = (Except.ok (InProcessClient.cancel_job c g st).1,
         (InProcessClient.cancel_job c g st).2) ∧
    BitsMonitorClient.get_status (BitsMonitorClient.InProcess m) t st
      = InProcessMonitor.get_status m t st :=
  ⟨rfl, rfl, rfl, rfl, rfl, rfl, rfl, rfl, rfl, rfl⟩

theorem stop_update_snd (c : InProcessClient) (g : Guid) (st : DriverState) :
    (InProcessClient.stop_update c g st).2 = (stopMonitor st g).2 := by
  unfold InProcessClient.stop_update
  split <;> rfl

theorem complete_job_snd_controls (c : InProcessClient) (g : Guid) (st : DriverState) :
    (InProcessClient.complete_job c g st).2.controls = (stopMonitor st g).2.controls := by
  unfold InProcessClient.complete_job
  split <;> rfl

theorem complete_job_snd_log (c : InProcessClient) (g : Guid) (st : DriverState) :
    (InProcessClient.complete_job c g st).2.log = (stopMonitor st g).2.log := by
  unfold InProcessClient.complete_job
  split <;> rfl

theorem cancel_job_snd_controls (c : InProcessClient) (g : Guid) (st : DriverState) :
    (InProcessClient.cancel_job c g st).2.controls = (stopMonitor st g).2.controls := by
  unfold InProcessClient.cancel_job
  split <;> rfl

theorem cancel_job_snd_log (c : InProcessClient) (g : Guid) (st : DriverState) :
    (InProcessClient.cancel_job c g st).2.log = (stopMonitor st g).2.log := by
  unfold InProcessClient.cancel_job
  split <;> rfl

/-- C2: the Monitor's priority state machine.  Starting from Idle (no active
control), Monitor creation — whether via `start_job` or via `monitor_job` —
issues exactly one foreground boost request and enters Boosted; `get_status`
issues no priority request and keeps the Boosted flag across every call; each
exit path — `stop_update`, job completion (`complete_job`), job cancellation
(`cancel_job`), or dropping the handle — issues exactly one restore-to-normal
request and returns to Idle (control removed); and once Idle, a further drop
or stop issues no request at all, so the restore runs exactly once and no
boost outlives the monitor. -/
theorem C2_priority_state_machine (c : InProcessClient) (g : Guid)
    (url savePath : String) (pu : BitsProxyUsage) (i t : Millis)
    (st : DriverState) :
    ((InProcessClient.start_job c url savePath pu i st).2.log
        = PriorityEvent.boost (freshGuid st) :: st.log ∧
      lookupG (InProcessClient.start_job c url savePath pu i st).2.controls (freshGuid st)
        = some { token := st.nextToken, interval := i, boosted := true,
                 nextStatusIn := i }) ∧
    (∀ job, lookupG st.jobs g = some job →
      (∃ m, (InProcessClient.monitor_job c g i st).1 = Except.ok m ∧ m.guid = g) ∧
      lookupG (InProcessClient.monitor_job c g i st).2.controls g
        = some { token := st.nextToken, interval := i, boosted := true, nextStatusIn := i } ∧
      (InProcessClient.monitor_job c g i st).2.log = PriorityEvent.boost g :: st.log) ∧
    (∀ (m : InProcessMonitor) (ctl : MonitorControl) (job : Job),
      lookupG st.controls m.guid = some ctl → ctl.token = m.token →
      lookupG st.jobs m.guid = some job →
      (InProcessMonitor.get_status m t st).2.log = st.log ∧
      ∃ ctl', lookupG (InProcessMonitor.get_status m t st).2.controls m.guid = some ctl' ∧
        ctl'.boosted = ctl.boosted) ∧
    (∀ ctl : MonitorControl, lookupG st.controls g = some ctl →
      ((InProcessClient.stop_update c g st).2.log = PriorityEvent.restore g :: st.log ∧
       lookupG (InProcessClient.stop_update c g st).2.controls g = none) ∧
      ((InProcessClient.complete_job c g st).2.log = PriorityEvent.restore g :: st.log ∧
       lookupG (InProcessClient.complete_job c g st).2.controls g = none) ∧
      ((InProcessClient.cancel_job c g st).2.log = PriorityEvent.restore g :: st.log ∧
       lookupG (InProcessClient.cancel_job c g st).2.controls g = none) ∧
      (∀ m : InProcessMonitor, m.guid = g → m.token = ctl.token →
        (InProcessMonitor.drop m st).log = PriorityEvent.restore g :: st.log ∧
        lookupG (InProcessMonitor.drop m st).controls g = none)) ∧
    (lookupG st.controls g = none →
      (∀ m : InProcessMonitor, m.guid = g → InProcessMonitor.drop m st = st) ∧
      InProcessClient.stop_update c g st
        = (Except.error SetUpdateIntervalFailure.NotFound, st)) := by
  refine ⟨?_, ?_, ?_, ?_, ?_⟩
  · constructor
    · simp [InProcessClient.start_job, installMonitor, issuePriority_log, startJobInsert]
    · simp [InProcessClient.start_job, installMonitor, issuePriority_controls,
        lookupG_setG_self, startJobInsert]
  · intro job h
    refine ⟨⟨⟨g, st.nextToken⟩, ?_, rfl⟩, ?_, ?_⟩
    · simp [InProcessClient.monitor_job, h, installMonitor]
    · simp [InProcessClient.monitor_job, h, installMonitor, issuePriority_controls,
        lookupG_setG_self]
    · simp [InProcessClient.monitor_job, h, installMonitor, issuePriority_log]
  · intro m ctl job hc ht hj
    unfold InProcessMonitor.get_status
    rw [hc, hj]
    dsimp only
    rw [if_neg (not_not_intro ht)]
    constructor
    · split <;> split <;> rfl
    · split
      · split
        · exact ⟨ctl, hc, rfl⟩
        · exact ⟨{ ctl with nextStatusIn := ctl.interval }, by simp [lookupG_setG_self], rfl⟩
      · split
        · exact ⟨ctl, hc, rfl⟩
        · exact ⟨{ ctl with nextStatusIn := ctl.interval }, by simp [lookupG_setG_self], rfl⟩
  · intro ctl hc
    have hs : (lookupG st.controls g).isSome = true := by rw [hc]; rfl
    refine ⟨⟨?_, ?_⟩, ⟨?_, ?_⟩, ⟨?_, ?_⟩, ?_⟩
    · rw [stop_update_snd, stopMonitor_log, hs]; simp
    · rw [stop_update_snd]; exact stopMonitor_controls st g
    · rw [complete_job_snd_log, stopMonitor_log, hs]; simp
    · rw [complete_job_snd_controls]; exact stopMonitor_controls st g
    · rw [cancel_job_snd_log, stopMonitor_log, hs]; simp
    · rw [cancel_job_snd_controls]; exact stopMonitor_controls st g
    · intro m hg htok
      subst hg
      unfold InProcessMonitor.drop
      rw [hc]
      dsimp only
      rw [if_pos htok.symm]
      constructor
      · rw [stopMonitor_log, hs]; simp
      · exact stopMonitor_controls st m.guid
  · intro h
    constructor
    · intro m hg
      unfold InProcessMonitor.drop
      subst hg
      rw [h]
    · unfold InProcessClient.stop_update
      rw [stopMonitor_none st g h]
      rfl

/-- C2 witness: in the concrete world `midState` (one job, one active boosted
control), `stop_update` appends exactly one restore request and removes the
control. -/
theorem C2_priority_state_machine_witness :
    (InProcessClient.stop_update client0 guid0 midState).2.log
      = PriorityEvent.restore guid0 :: midState.log ∧
    lookupG (InProcessClient.stop_update client0 guid0 midState).2.controls guid0 = none :=
  ((C2_priority_state_machine client0 guid0 "u" "f" BitsProxyUsage.NoProxy 1000 0
    midState).2.2.2.1 ctl0 rfl).1

theorem get_status_error_kinds (m : InProcessMonitor) (t : Millis) (st : DriverState)
    (err : PipeError) (h : (InProcessMonitor.get_status m t st).1 = Except.error err) :
    err = PipeError.NotConnected ∨ err = PipeError.Timeout := by
  unfold InProcessMonitor.get_status at h
  split at h
  · exact Or.inl (Except.error.inj h).symm
  · split at h
    · exact Or.inl (Except.error.inj h).symm
    · split at h
      · exact Or.inl (Except.error.inj h).symm
      · split at h
        · split at h
          · exact Or.inr (Except.error.inj h).symm
          · simp at h
        · split at h
          · exact Or.inr (Except.error.inj h).symm
          · simp at h

/-- C4: `complete_job` and `cancel_job` stop any monitor still bound to the
job identifier as part of the call — afterwards no control remains for that
id — and a `get_status` call on a monitor handle for that id then fails with
`NotConnected`, which is not `Timeout`. -/
theorem C4_terminal_ops_stop_monitor (bc : BitsClient) (g : Guid) (t : Millis)
    (st : DriverState) (m : InProcessMonitor) (hm : m.guid = g) :
    (lookupG (BitsClient.complete_job bc g st).2.controls g = none ∧
     (BitsMonitorClient.get_status (BitsMonitorClient.InProcess m) t
        (BitsClient.complete_job bc g st).2).1 = Except.error PipeError.NotConnected) ∧
    (lookupG (BitsClient.cancel_job bc g st).2.controls g = none ∧
     (BitsMonitorClient.get_status (BitsMonitorClient.InProcess m) t
        (BitsClient.cancel_job bc g st).2).1 = Except.error PipeError.NotConnected) ∧
    PipeError.NotConnected ≠ PipeError.Timeout := by
  cases bc with
  | InProcess c =>
    subst hm
    have hcomp : lookupG (BitsClient.complete_job (BitsClient.InProcess c) m.guid st).2.controls
        m.guid = none := by
      show lookupG (InProcessClient.complete_job c m.guid st).2.controls m.guid = none
      rw [complete_job_snd_controls]
      exact stopMonitor_controls st m.guid
    have hcanc : lookupG (BitsClient.cancel_job (BitsClient.InProcess c) m.guid st).2.controls
        m.guid = none := by
      show lookupG (InProcessClient.cancel_job c m.guid st).2.controls m.guid = none
      rw [cancel_job_snd_controls]
      exact stopMonitor_controls st m.guid
    refine ⟨⟨hcomp, ?_⟩, ⟨hcanc, ?_⟩, by simp⟩
    · show (InProcessMonitor.get_status m t
        (BitsClient.complete_job (BitsClient.InProcess c) m.guid st).2).1
          = Except.error PipeError.NotConnected
      unfold InProcessMonitor.get_status
      rw [hcomp]
    · show (InProcessMonitor.get_status m t
        (BitsClient.cancel_job (BitsClient.InProcess c) m.guid st).2).1
          = Except.error PipeError.NotConnected
      unfold InProcessMonitor.get_status
      rw [hcanc]

/-- C4 witness: completing the job in the concrete world `midState` removes
its monitor control, and `get_status` on the old handle then fails with
`NotConnected`. -/
theorem C4_terminal_ops_stop_monitor_witness :
    lookupG (BitsClient.complete_job (BitsClient.InProcess client0) guid0 midState).2.controls
      guid0 = none ∧
    (BitsMonitorClient.get_status (BitsMonitorClient.InProcess mon0) 5000
      (BitsClient.complete_job (BitsClient.InProcess client0) guid0 midState).2).1
        = Except.error PipeError.NotConnected :=
  (C4_terminal_ops_stop_monitor (BitsClient.InProcess client0) guid0 5000 midState mon0
    rfl).1

/-- C5: for an active, current monitor handle over an existing job,
`get_status(t)` has exactly two outcomes: if `t` is shorter than the wait for
the next snapshot (zero when the job has completed or errored, otherwise the
remaining poll wait) the result is exactly the `Timeout` communication error,
and otherwise it is the job's status snapshot; no retry or other outcome
exists. -/
theorem C5_get_status_semantics (m : InProcessMonitor) (t : Millis) (st : DriverState)
    (ctl : MonitorControl) (job : Job)
    (hc : lookupG st.controls m.guid = some ctl) (ht : ctl.token = m.token)
    (hj : lookupG st.jobs m.guid = some job) :
    (t < (if job.state.isFinal then 0 else ctl.nextStatusIn) →
      (InProcessMonitor.get_status m t st).1 = Except.error PipeError.Timeout) ∧
    ((if job.state.isFinal then 0 else ctl.nextStatusIn) ≤ t →
      (InProcessMonitor.get_status m t st).1 = Except.ok (Job.statusSnapshot job)) := by
  unfold InProcessMonitor.get_status
  rw [hc, hj]
  dsimp only
  rw [if_neg (not_not_intro ht)]
  constructor
  · intro hlt
    rw [if_pos hlt]
  · intro hle
    rw [if_neg (Nat.not_lt.mpr hle)]

/-- C5 witness: in the concrete world `midState` (poll interval 1000 ms, job
transferring), `get_status 0` returns exactly `Timeout` and `get_status 5000`
returns the real status snapshot. -/
theorem C5_get_status_semantics_witness :
    (InProcessMonitor.get_status mon0 0 midState).1 = Except.error PipeError.Timeout ∧
    (InProcessMonitor.get_status mon0 5000 midState).1
      = Except.ok (Job.statusSnapshot job0) :=
  ⟨(C5_get_status_semantics mon0 0 midState ctl0 job0 rfl rfl rfl).1 (by decide),
   (C5_get_status_semantics mon0 5000 midState ctl0 job0 rfl rfl rfl).2 (by decide)⟩

theorem stop_update_primary (c : InProcessClient) (g : Guid) (st : DriverState) :
    (InProcessClient.stop_update c g st).1
      = if (lookupG st.controls g).isSome then Except.ok ()
        else Except.error SetUpdateIntervalFailure.NotFound := by
  unfold InProcessClient.stop_update
  rw [stopMonitor_fst]
  split <;> simp_all

theorem complete_job_primary (c : InProcessClient) (g : Guid) (st : DriverState) :
    (InProcessClient.complete_job c g st).1
      = if (lookupG st.jobs g).isSome then Except.ok ()
        else Except.error CompleteJobFailure.NotFound := by
  unfold InProcessClient.complete_job
  have hj := stopMonitor_jobs_isSome st g
  cases hx : lookupG (stopMonitor st g).2.jobs g with
  | none =>
    rw [hx] at hj
    simp only [Option.isSome_none] at hj
    rw [← hj]
    rfl
  | some j =>
    rw [hx] at hj
    simp only [Option.isSome_some] at hj
    rw [← hj]
    rfl

theorem cancel_job_primary (c : InProcessClient) (g : Guid) (st : DriverState) :
    (InProcessClient.cancel_job c g st).1
      = if (lookupG st.jobs g).isSome then Except.ok ()
        else Except.error CancelJobFailure.NotFound := by
  unfold InProcessClient.cancel_job
  have hj := stopMonitor_jobs_isSome st g
  cases hx : lookupG (stopMonitor st g).2.jobs g with
  | none =>
    rw [hx] at hj
    simp only [Option.isSome_none] at hj
    rw [← hj]
    rfl
  | some j =>
    rw [hx] at hj
    simp only [Option.isSome_some] at hj
    rw [← hj]
    rfl

/-- C6: a failing priority-restoration request during monitor teardown is
never the caller-visible result of the triggering operation: the primary
results of `stop_update`, `complete_job` and `cancel_job` are the same whether
the environment makes the driver's restore request fail or succeed (dropping
the handle returns no result at all, so nothing can propagate from it). -/
theorem C6_restore_failure_swallowed (c : InProcessClient) (g : Guid) (st : DriverState)
    (b₁ b₂ : Bool) :
    (InProcessClient.stop_update c g { st with setPriorityFails := b₁ }).1
      = (InProcessClient.stop_update c g { st with setPriorityFails := b₂ }).1 ∧
    (InProcessClient.complete_job c g { st with setPriorityFails := b₁ }).1
      = (InProcessClient.complete_job c g { st with setPriorityFails := b₂ }).1 ∧
    (InProcessClient.cancel_job c g { st with setPriorityFails := b₁ }).1
      = (InProcessClient.cancel_job c g { st with setPriorityFails := b₂ }).1 := by
  refine ⟨?_, ?_, ?_⟩
  · rw [stop_update_primary, stop_update_primary]
  · rw [complete_job_primary, complete_job_primary]
  · rw [cancel_job_primary, cancel_job_primary]

/-- C7: `BitsClient::new` either yields a client or fails with a
communication-layer error only (its result type has no inner execution
layer), and on the in-process transport any failure is the `Api` variant
produced by the `From<ComedyError>` conversion, which always yields `Api`
and preserves the original OS-level cause. -/
theorem C7_new_single_layer (job_name save_path_prefix : String)
    (connectFailure : Option ComedyError) :
    (∀ e : ComedyError, PipeError.fromComedyError e = PipeError.Api e) ∧
    (connectFailure = none →
      BitsClient.new job_name save_path_prefix connectFailure
        = Except.ok (BitsClient.InProcess
            { job_name := job_name, save_path_prefix := save_path_prefix })) ∧
    (∀ e : ComedyError, connectFailure = some e →
      BitsClient.new job_name save_path_prefix connectFailure
        = Except.error (PipeError.Api e)) := by
  refine ⟨fun e => rfl, ?_, ?_⟩
  · intro h
    subst h
    rfl
  · intro e h
    subst h
    rfl

/-- C7 witness: a concrete failed connection attempt surfaces as `Api`
wrapping the original OS-level cause. -/
theorem C7_new_single_layer_witness :
    BitsClient.new "TestJob" "dl/" (some ⟨5⟩) = Except.error (PipeError.Api ⟨5⟩) :=
  (C7_new_single_layer "TestJob" "dl/" (some ⟨5⟩)).2.2 ⟨5⟩ rfl

theorem lookupG_jobs_issuePriority (st : DriverState) (g : Guid) (fg : Bool) (job : Job)
    (h : lookupG st.jobs g = some job) :
    ∃ job', lookupG (issuePriority st g fg).jobs g = some job' ∧
      job'.url = job.url ∧ job'.savePath = job.savePath ∧
      job'.proxyUsage = job.proxyUsage := by
  unfold issuePriority applyPriority logPriorityRequest
  dsimp only
  split
  · exact ⟨job, h, rfl, rfl, rfl⟩
  · rw [h]
    dsimp only
    exact ⟨{ job with foreground := fg }, by simp [lookupG_setG_self], rfl, rfl, rfl⟩

theorem installMonitor_jobs (st : DriverState) (g : Guid) (i : Millis) (job : Job)
    (h : lookupG st.jobs g = some job) :
    ∃ job', lookupG (installMonitor st g i).2.jobs g = some job' ∧
      job'.url = job.url ∧ job'.savePath = job.savePath ∧
      job'.proxyUsage = job.proxyUsage := by
  unfold installMonitor
  exact lookupG_jobs_issuePriority _ g true job h

/-- C8: a successful `start_job` returns, in one atomic call, a pair of the
new job's 128-bit guid and a monitor already bound to that guid with an
active boosted control polling at `monitor_interval_millis`; the job is
stored under the client's save-path prefix with the requested url and proxy
usage. -/
theorem C8_start_job_success_shape (c : InProcessClient) (url savePath : String)
    (pu : BitsProxyUsage) (i : Millis) (st : DriverState) :
    ∃ (success : StartJobSuccess) (m : InProcessMonitor),
      (BitsClient.start_job (BitsClient.InProcess c) url savePath pu i st).1
        = Except.ok (Except.ok (success, BitsMonitorClient.InProcess m)) ∧
      m.guid = success.guid ∧
      success.guid.data.val < 2 ^ 128 ∧
      lookupG (BitsClient.start_job (BitsClient.InProcess c) url savePath pu i st).2.controls
          success.guid
        = some { token := st.nextToken, interval := i, boosted := true, nextStatusIn := i } ∧
      ∃ job : Job,
        lookupG (BitsClient.start_job (BitsClient.InProcess c) url savePath pu i st).2.jobs
            success.guid = some job ∧
        job.url = url ∧
        job.savePath = InProcessClient.save_path_prefix c ++ savePath ∧
        job.proxyUsage = pu := by
  refine ⟨⟨freshGuid st⟩, ⟨freshGuid st, st.nextToken⟩, rfl, rfl,
    (freshGuid st).data.isLt, ?_, ?_⟩
  · show lookupG (InProcessClient.start_job c url savePath pu i st).2.controls (freshGuid st)
      = some { token := st.nextToken, interval := i, boosted := true, nextStatusIn := i }
    simp [InProcessClient.start_job, installMonitor, issuePriority_controls,
      lookupG_setG_self, startJobInsert]
  · obtain ⟨job', hj, hurl, hpath, hproxy⟩ :=
      installMonitor_jobs (startJobInsert c url savePath pu st) (freshGuid st) i
        { url := url, savePath := InProcessClient.save_path_prefix c ++ savePath,
          proxyUsage := pu, foreground := false, state := BitsJobState.Transferring,
          progress := { total := 0, completed := 0 }, error := none }
        (by simp [startJobInsert, lookupG_setG_self])
    exact ⟨job', hj, by rw [hurl], by rw [hpath], by rw [hproxy]⟩

/-- C9 counterexample: the claim that on the in-process transport the
`Timeout` (and `NotConnected`) branches are unreachable and only `Api` can be
produced is false — a concrete in-process `get_status` whose deadline expires
returns exactly the `Timeout` kind, which is not `Api`. -/
theorem C9_counterexample :
    (BitsMonitorClient.get_status (BitsMonitorClient.InProcess mon0) 0 midState).1
      = Except.error PipeError.Timeout ∧
    (∀ cause : ComedyError, PipeError.Timeout ≠ PipeError.Api cause) :=
  ⟨rfl, fun _ h => PipeError.noConfusion h⟩

/-- C9 (amended): `WriteCount(expected, actual)` is produced only by a framed
transport write that did not write exactly the required byte count, and never
by a full write; the in-process transport performs no framed writes, so no
in-process operation can produce `WriteCount` — but its monitor `get_status`
can still produce `Timeout` (deadline expiry) and `NotConnected` (severed
monitor), so only the `WriteCount` branch is unreachable in-process. -/
theorem C9_writecount_only_short_writes :
    (∀ n : Nat, verifyFrameWrite n n = Except.ok ()) ∧
    (∀ (e a : Nat) (err : PipeError), verifyFrameWrite e a = Except.error err →
      err = PipeError.WriteCount e a ∧ a ≠ e) ∧
    (∀ (m : BitsMonitorClient) (t : Millis) (st : DriverState) (err : PipeError),
      (BitsMonitorClient.get_status m t st).1 = Except.error err →
      err = PipeError.NotConnected ∨ err = PipeError.Timeout) ∧
    (∀ (bc : BitsClient) (g : Guid) (st : DriverState) (a b : Nat),
      (BitsClient.complete_job bc g st).1 ≠ Except.error (PipeError.WriteCount a b)) := by
  refine ⟨?_, ?_, ?_, ?_⟩
  · intro n
    simp [verifyFrameWrite]
  · intro e a err h
    unfold verifyFrameWrite at h
    split at h
    · simp at h
    · next hne => exact ⟨(Except.error.inj h).symm, hne⟩
  · intro m t st err h
    cases m with
    | InProcess mi => exact get_status_error_kinds mi t st err h
  · intro bc g st a b
    cases bc with
    | InProcess c => simp [BitsClient.complete_job]

/-- C9 witness: a concrete short frame write (2 of 4 bytes) yields exactly
`WriteCount(4, 2)`, and a concrete in-process expired-deadline `get_status`
error is classified as `Timeout`. -/
theorem C9_writecount_only_short_writes_witness :
    (PipeError.WriteCount 4 2 = PipeError.WriteCount 4 2 ∧ (2 : Nat) ≠ 4) ∧
    (PipeError.Timeout = PipeError.NotConnected ∨ PipeError.Timeout = PipeError.Timeout) :=
  ⟨C9_writecount_only_short_writes.2.1 4 2 (PipeError.WriteCount 4 2) rfl,
   C9_writecount_only_short_writes.2.2.1 (BitsMonitorClient.InProcess mon0) 0 midState
     PipeError.Timeout rfl⟩
